import Mathlib

/-!
Shallow embedding of the core of `gpx-draw.py` (a GPX-track / GeoJSON map
renderer) and verification of its specification claims.

Modelling conventions:
* Python floats are modelled as real numbers `ℝ`; machine rounding is out of
  scope of the claims, which are about exact formulas and control flow.
* A `datetime` value is modelled as a real-valued timestamp (seconds); the
  subtraction `(t2 - t1).total_seconds()` becomes real subtraction.
* Fallible Python code (uncaught exceptions such as `TypeError`,
  `ZeroDivisionError`, `ValueError`, XML parse errors) is modelled with
  `Except String`; an `Except.error` value corresponds to the exception
  propagating out of the function.
* Drawing on matplotlib axes is modelled by emitting a list of drawing
  commands; the claims only concern which geometry gets staged, and in what
  order.
-/

namespace GpxDraw

/-- A parsed track point exactly as produced by `parse_gpx`:
a `(lat, lon, time)` tuple. -/
abbrev Point : Type := ℝ × ℝ × ℝ

/-- A raw `trkpt` element of a GPX document: the `lat` / `lon` attributes and
the nested `time` element, each possibly absent.  Attribute decoding
(`float(...)`, ISO-8601 instant parsing) is abstracted: a present attribute is
carried as an already-decoded value. -/
structure TrkPt where
  lat : Option ℝ
  lon : Option ℝ
  time : Option ℝ

/-- Embedding of `parse_gpx` (gpx-draw.py lines 18-32): iterate over the
`trkpt` elements in document order; `float(trkpt.get('lat'))` raises
`TypeError` when the attribute is missing (likewise for `lon`); the point is
appended to the result only when a `time` element is present — a timeless
point is silently dropped. -/
def parse_gpx : List TrkPt → Except String (List Point)
  | [] => .ok []
  | p :: rest =>
    match p.lat, p.lon with
    | some la, some lo =>
      match p.time with
      | some t =>
        match parse_gpx rest with
        | .ok ps => .ok ((la, lo, t) :: ps)
        | .error e => .error e
      | none => parse_gpx rest
    | _, _ => .error "TypeError: float() argument must be a string or a real number, not NoneType"

/-- Embedding of `math.radians`: degrees to radians. -/
noncomputable def radians (x : ℝ) : ℝ := x * Real.pi / 180

open Classical in
/-- Embedding of `math.atan2 y x`: the two-argument arctangent, on real numbers (the
signed-zero distinctions of IEEE floats do not exist on `ℝ`). -/
noncomputable def atan2 (y x : ℝ) : ℝ :=
  if 0 < x then Real.arctan (y / x)
  else if x < 0 then
    (if 0 ≤ y then Real.arctan (y / x) + Real.pi else Real.arctan (y / x) - Real.pi)
  else if 0 < y then Real.pi / 2
  else if y < 0 then -(Real.pi / 2)
  else 0

/-- Embedding of `haversine` (gpx-draw.py lines 34-46): great-circle distance
in kilometres. -/
noncomputable def haversine (lat1 lon1 lat2 lon2 : ℝ) : ℝ :=
  let R : ℝ := 6371.0
  let dlat := radians (lat2 - lat1)
  let dlon := radians (lon2 - lon1)
  let lat1_rad := radians lat1
  let lat2_rad := radians lat2
  let a := Real.sin (dlat / 2) ^ 2 +
    Real.cos lat1_rad * Real.cos lat2_rad * Real.sin (dlon / 2) ^ 2
  let c := 2 * atan2 (Real.sqrt a) (Real.sqrt (1 - a))
  R * c

/-- Embedding of `compute_speed_kph` (gpx-draw.py lines 48-52). -/
noncomputable def compute_speed_kph (lat1 lon1 lat2 lon2 dt_seconds : ℝ) : ℝ :=
  let distance_km := haversine lat1 lon1 lat2 lon2
  let hours := dt_seconds / 3600.0
  |distance_km / hours|

open Classical in
/-- Embedding of `exceeds_speed_threshold` (gpx-draw.py lines 54-65): the
`for i in range(1, len(points))` loop over adjacent pairs, with `continue` on
a zero time delta and an early `return True` on a violating segment. -/
noncomputable def exceeds_speed_threshold (points : List Point) (max_kph : ℝ) : Bool :=
  match points with
  | p1 :: p2 :: rest =>
    let dt_seconds := p2.2.2 - p1.2.2
    if dt_seconds = 0 then exceeds_speed_threshold (p2 :: rest) max_kph
    else if compute_speed_kph p1.1 p1.2.1 p2.1 p2.2.1 dt_seconds > max_kph then true
    else exceeds_speed_threshold (p2 :: rest) max_kph
  | _ => false

open Classical in
/-- Python `int()` applied to a float: truncation toward zero. -/
noncomputable def pyInt (x : ℝ) : ℤ := if 0 ≤ x then ⌊x⌋ else ⌈x⌉

/-- Python `str.endswith`, as a suffix test on the character sequence. -/
def endswith (s suffix : String) : Bool := suffix.data.isSuffixOf s.data

/-- The `ValueError` message of `autoscale_resolution_from_bbox`. -/
def bboxErrMsg : String :=
  "Bounding box must be provided with four values: min_lon, max_lon, min_lat, max_lat."

open Classical in
/-- Embedding of `autoscale_resolution_from_bbox` (gpx-draw.py lines 172-181).
`bbox = none` models `bbox is None`; the `not bbox or len(bbox) != 4` guard
raises `ValueError`.  Python raises `ZeroDivisionError` at the
`(lon_range * scale_factor) / lat_range` division when `lat_range == 0`; the
embedding tests `lat_range = 0` and takes the error branch there. -/
noncomputable def autoscale_resolution_from_bbox (bbox : Option (List ℝ))
    (target_height : ℤ) : Except String (ℤ × ℤ) :=
  match bbox with
  | none => .error bboxErrMsg
  | some b =>
    if b.length ≠ 4 then .error bboxErrMsg
    else
      let lat_range := b.getD 3 0 - b.getD 2 0
      let lon_range := b.getD 1 0 - b.getD 0 0
      let scale_factor := Real.cos (radians ((b.getD 2 0 + b.getD 3 0) / 2))
      if lat_range = 0 then .error "ZeroDivisionError: float division by zero"
      else
        let aspect_ratio := lon_range * scale_factor / lat_range
        let width := pyInt ((target_height : ℝ) * aspect_ratio)
        .ok (width, target_height)

open Classical in
/-- Embedding of the track loop of `create_map` (gpx-draw.py lines 157-164):
enumerate the directory entries, select names ending in `.gpx`, parse each
(`ET.parse` failure on the file content is the first `Except`, `parse_gpx`
failure the second; both exceptions propagate uncaught), drop tracks that
exceed the speed threshold, and stage the rest in order.  `draw_gpx_points`
raises `ValueError` on an empty point list (`zip(*[])` unpacking). -/
noncomputable def create_map_tracks (files : List (String × Except String (List TrkPt)))
    (max_speed : Option ℝ) : Except String (List (List Point)) :=
  match files with
  | [] => .ok []
  | (filename, content) :: rest =>
    if endswith filename ".gpx" then
      match content with
      | .error e => .error e
      | .ok doc =>
        match parse_gpx doc with
        | .error e => .error e
        | .ok points =>
          if (match max_speed with
              | some m => exceeds_speed_threshold points m
              | none => false) then
            create_map_tracks rest max_speed
          else if points.isEmpty then
            .error "ValueError: not enough values to unpack (expected 2, got 0)"
          else
            match create_map_tracks rest max_speed with
            | .ok staged => .ok (points :: staged)
            | .error e => .error e
    else create_map_tracks rest max_speed

open Classical in
/-- Embedding of the `__main__` driver (gpx-draw.py lines 199-208): when
`args.autoscale` is truthy (present and nonzero) the resolution comes from
`autoscale_resolution_from_bbox`, otherwise from `args.resolution`; only then
is `create_map` run over the source directory. -/
noncomputable def main_run (files : List (String × Except String (List TrkPt)))
    (resolutionArg : ℤ × ℤ) (bbox : Option (List ℝ)) (autoscale : Option ℤ)
    (maxspeed : Option ℝ) : Except String ((ℤ × ℤ) × List (List Point)) :=
  match
    (match autoscale with
     | some a =>
       if a ≠ 0 then autoscale_resolution_from_bbox bbox a
       else .ok resolutionArg
     | none => .ok resolutionArg) with
  | .error e => .error e
  | .ok resolution =>
    match create_map_tracks files maxspeed with
    | .error e => .error e
    | .ok tracks => .ok (resolution, tracks)

/-- A JSON value as found under `geometry.coordinates` of a GeoJSON feature:
a number or a nested array. -/
inductive JVal where
  | num (x : ℝ)
  | arr (elems : List JVal)

/-- A GeoJSON feature as read by `draw_geojson`: `feature.get('geometry', {})`
yields its geometry dictionary, `geom.get('type')` the optional type tag
(`none` models a missing geometry or type) and `geom.get('coordinates', [])`
the coordinate array (defaulting to `[]`). -/
structure Feature where
  typ : Option String
  coords : List JVal

/-- A drawing command staged on the matplotlib axes: `axies.plot` for a
LineString, `axies.add_patch(MplPolygon ...)` for a polygon ring. -/
inductive DrawCmd where
  | plotLine (lons lats : List ℝ)
  | addPolygon (pts : List (ℝ × ℝ))

/-- One row of a coordinate array, as consumed by `zip(*coords)`: it must be
an array (else `zip` raises `TypeError`), and its entries are read as
numbers. -/
def toRow : JVal → Except String (List ℝ)
  | .num _ => .error "TypeError: zip argument is not iterable"
  | .arr es => es.mapM fun e =>
      match e with
      | .num x => .ok x
      | .arr _ => .error "TypeError: coordinate is not a number"

/-- The number of tuples `zip(*rows)` yields: the minimum row length
(`none` when there are no rows at all). -/
def minRowLen : List (List ℝ) → Option ℕ
  | [] => none
  | [r] => some r.length
  | r :: rest =>
    match minRowLen rest with
    | none => some r.length
    | some m => some (min r.length m)

/-- Unpacking `lons, lats = zip(*coords)`: transpose the coordinate rows and unpack
into exactly two sequences; `zip` of zero rows, or a transpose of a length
other than 2, makes the unpacking raise `ValueError`. -/
def unzip2 (coords : List JVal) : Except String (List ℝ × List ℝ) :=
  match coords.mapM toRow with
  | .error e => .error e
  | .ok rows =>
    match minRowLen rows with
    | none => .error "ValueError: not enough values to unpack (expected 2, got 0)"
    | some m =>
      if m = 2 then
        .ok (rows.map fun r => r.getD 0 0, rows.map fun r => r.getD 1 0)
      else .error "ValueError: zip unpacking into two names failed"

/-- One `ring` of a Polygon: `lons, lats = zip(*ring)` followed by
`axies.add_patch(MplPolygon(list(zip(lons, lats)), ...))`. -/
def drawRing (ring : JVal) : Except String DrawCmd :=
  match ring with
  | .num _ => .error "TypeError: zip argument is not iterable"
  | .arr es =>
    match unzip2 es with
    | .ok (lons, lats) => .ok (.addPolygon (lons.zip lats))
    | .error e => .error e

/-- The `for ring in coords` loop of the Polygon branch. -/
def drawRings (rings : List JVal) : Except String (List DrawCmd) :=
  rings.mapM drawRing

/-- One `polygon` of a MultiPolygon: its list of rings. -/
def drawPoly (poly : JVal) : Except String (List DrawCmd) :=
  match poly with
  | .num _ => .error "TypeError: object is not iterable"
  | .arr rings => drawRings rings

/-- The `for polygon in coords` loop of the MultiPolygon branch. -/
def drawPolys (polys : List JVal) : Except String (List DrawCmd) :=
  match polys.mapM drawPoly with
  | .ok cmds => .ok cmds.flatten
  | .error e => .error e

/-- The body of the `for feature in data.get('features', [])` loop of
`draw_geojson` (gpx-draw.py lines 75-93): dispatch on the geometry type;
a type other than LineString / Polygon / MultiPolygon falls through all
branches and stages nothing. -/
def drawFeature (f : Feature) : Except String (List DrawCmd) :=
  match f.typ with
  | some t =>
    if t = "LineString" then
      match unzip2 f.coords with
      | .ok (lons, lats) => .ok [.plotLine lons lats]
      | .error e => .error e
    else if t = "Polygon" then
      drawRings f.coords
    else if t = "MultiPolygon" then
      drawPolys f.coords
    else .ok []
  | none => .ok []

/-- Embedding of `draw_geojson` (gpx-draw.py lines 67-93): the features of
the document are processed in order, an exception in any feature propagates,
and the staged drawing commands are concatenated in document order. -/
def draw_geojson : List Feature → Except String (List DrawCmd)
  | [] => .ok []
  | f :: rest =>
    match drawFeature f with
    | .error e => .error e
    | .ok cmds =>
      match draw_geojson rest with
      | .error e => .error e
      | .ok more => .ok (cmds ++ more)

/-- The haversine formula exactly as the specification words it (the
refinement target for claim C3): `a = sin^2(dlat/2) + cos(lat1) cos(lat2)
sin^2(dlon/2)`, `c = 2 atan2(sqrt a, sqrt (1 - a))`, `distance = R c` with
`R = 6371.0` km and all angles in radians. -/
noncomputable def haversine_spec (lat1 lon1 lat2 lon2 : ℝ) : ℝ :=
  let a := Real.sin (radians (lat2 - lat1) / 2) ^ 2 +
    Real.cos (radians lat1) * Real.cos (radians lat2) *
      Real.sin (radians (lon2 - lon1) / 2) ^ 2
  let c := 2 * atan2 (Real.sqrt a) (Real.sqrt (1 - a))
  6371.0 * c

end GpxDraw

/-! ## Theorems settling the specification claims -/

namespace GpxDraw

/-- Claim C1, counterexample: a track point carrying `lat` and `lon` but no
nested `time` element is dropped by `parse_gpx` — the output for a one-point
document is the empty sequence, not a one-element sequence with an absent
timestamp. -/
theorem parse_gpx_timeless_point_dropped :
    parse_gpx [⟨some 51.5, some 0.12, none⟩] = Except.ok ([] : List Point) ∧
      (parse_gpx [⟨some 51.5, some 0.12, none⟩]).map List.length = Except.ok 0 :=
  ⟨rfl, rfl⟩

/-- Claim C1 (amended): for every parseable track file (every track point
carries `lat` and `lon`), `parse_gpx` returns, in document order, one point
per track point that also carries a `time` element; a point with no `time`
element is silently dropped from the output (it is not an error). -/
theorem parse_gpx_keeps_only_timed (doc : List TrkPt)
    (h : ∀ p ∈ doc, p.lat.isSome ∧ p.lon.isSome) :
    parse_gpx doc = Except.ok (doc.filterMap fun p =>
      match p.lat, p.lon, p.time with
      | some la, some lo, some t => some ((la, lo, t) : Point)
      | _, _, _ => none) := by
  induction doc with
  | nil => rfl
  | cons p rest ih =>
    obtain ⟨hla, hlo⟩ := h p (List.mem_cons_self p rest)
    have hrest := ih fun q hq => h q (List.mem_cons_of_mem p hq)
    obtain ⟨la, hla'⟩ := Option.isSome_iff_exists.mp hla
    obtain ⟨lo, hlo'⟩ := Option.isSome_iff_exists.mp hlo
    cases htime : p.time with
    | some t => simp only [parse_gpx, hla', hlo', htime, List.filterMap_cons, hrest]
    | none => simp only [parse_gpx, hla', hlo', htime, List.filterMap_cons, hrest]

/-- Claim C1 witness: the amended theorem at a concrete two-point document,
the second point lacking its timestamp. -/
theorem parse_gpx_keeps_only_timed_witness :
    parse_gpx [⟨some 1, some 2, some 3⟩, ⟨some 4, some 5, none⟩] =
      Except.ok [((1:ℝ), (2:ℝ), (3:ℝ))] := by
  have h := parse_gpx_keeps_only_timed
    [⟨some 1, some 2, some 3⟩, ⟨some 4, some 5, none⟩] (by simp)
  simpa using h

/-- Helper for claims C2 and C9: `exceeds_speed_threshold` returns `true`
exactly when some adjacent pair of points has a nonzero time delta and a
speed strictly above the threshold. -/
theorem exceeds_iff (points : List Point) (max_kph : ℝ) :
    exceeds_speed_threshold points max_kph = true ↔
      ∃ pr ∈ points.zip points.tail,
        pr.2.2.2 - pr.1.2.2 ≠ 0 ∧
          compute_speed_kph pr.1.1 pr.1.2.1 pr.2.1 pr.2.2.1 (pr.2.2.2 - pr.1.2.2) > max_kph := by
  induction points with
  | nil => simp [exceeds_speed_threshold]
  | cons p1 tl ih =>
    cases tl with
    | nil => simp [exceeds_speed_threshold]
    | cons p2 rest =>
      simp only [exceeds_speed_threshold, List.tail_cons, List.zip_cons_cons] at ih ⊢
      by_cases h0 : p2.2.2 - p1.2.2 = 0
      · rw [if_pos h0, ih]
        simp [h0]
      · by_cases hsp : compute_speed_kph p1.1 p1.2.1 p2.1 p2.2.1 (p2.2.2 - p1.2.2) > max_kph
        · rw [if_neg h0, if_pos hsp]
          simp [h0, hsp]
        · rw [if_neg h0, if_neg hsp, ih]
          simp [hsp]

/-- Claim C2: `exceeds_speed_threshold points max_kph` is `true` iff some
adjacent pair of points in document order has a nonzero time delta and a
haversine-derived speed strictly above `max_kph`; a zero-time-delta segment
never causes exclusion (it cannot witness the existential), and a track with
fewer than 2 points is never excluded.  (In the code every parsed point
carries a timestamp — `parse_gpx` drops timeless points — so a segment with
an absent timestamp does not arise.) -/
theorem exceeds_speed_threshold_spec (points : List Point) (max_kph : ℝ) :
    (exceeds_speed_threshold points max_kph = true ↔
      ∃ pr ∈ points.zip points.tail,
        pr.2.2.2 - pr.1.2.2 ≠ 0 ∧
          compute_speed_kph pr.1.1 pr.1.2.1 pr.2.1 pr.2.2.1 (pr.2.2.2 - pr.1.2.2) > max_kph) ∧
    (points.length < 2 → exceeds_speed_threshold points max_kph = false) := by
  refine ⟨exceeds_iff points max_kph, ?_⟩
  intro hlen
  cases points with
  | nil => rfl
  | cons p tl =>
    cases tl with
    | nil => rfl
    | cons q rest => simp [List.length_cons] at hlen; omega

/-- Claim C2 witness: a one-point track is never excluded. -/
theorem exceeds_speed_threshold_spec_witness :
    exceeds_speed_threshold [((0:ℝ), (0:ℝ), (0:ℝ))] 5 = false :=
  (exceeds_speed_threshold_spec [((0:ℝ), (0:ℝ), (0:ℝ))] 5).2 (by simp)

/-- Helper: `atan2 (sin t) (cos t) = t` on the open interval where the
cosine is positive. -/
theorem atan2_sin_cos (t : ℝ) (h1 : -(Real.pi / 2) < t) (h2 : t < Real.pi / 2) :
    atan2 (Real.sin t) (Real.cos t) = t := by
  have hc : 0 < Real.cos t := Real.cos_pos_of_mem_Ioo ⟨h1, h2⟩
  rw [atan2, if_pos hc, ← Real.tan_eq_sin_div_cos, Real.arctan_tan h1 h2]

/-- Helper: the haversine distance from a point to itself is zero. -/
theorem haversine_self (lat lon : ℝ) : haversine lat lon lat lon = 0 := by
  have h01 : atan2 0 1 = 0 := by
    rw [atan2, if_pos (by norm_num : (0:ℝ) < 1)]
    simp
  simp [haversine, radians, sub_self, h01]

/-- Helper: the haversine distance between (0,0) and (0,1) degrees is
exactly `6371 * pi / 180` kilometres. -/
theorem haversine_origin_east : haversine 0 0 0 1 = 6371 * (Real.pi / 180) := by
  have hpi := Real.pi_pos
  have ht1 : -(Real.pi / 2) < Real.pi / 360 := by linarith
  have ht2 : Real.pi / 360 < Real.pi / 2 := by linarith
  have hs : 0 ≤ Real.sin (Real.pi / 360) :=
    Real.sin_nonneg_of_nonneg_of_le_pi (by linarith) (by linarith)
  have hc : 0 ≤ Real.cos (Real.pi / 360) :=
    le_of_lt (Real.cos_pos_of_mem_Ioo ⟨ht1, ht2⟩)
  have e1 : ((0:ℝ) - 0) * Real.pi / 180 / 2 = 0 := by ring
  have e2 : ((1:ℝ) - 0) * Real.pi / 180 / 2 = Real.pi / 360 := by ring
  have e3 : (0:ℝ) * Real.pi / 180 = 0 := by ring
  simp only [haversine, radians]
  rw [e1, e2, e3, Real.sin_zero, Real.cos_zero]
  have e4 : (0:ℝ) ^ 2 + 1 * 1 * Real.sin (Real.pi / 360) ^ 2 =
      Real.sin (Real.pi / 360) ^ 2 := by ring
  rw [e4, Real.sqrt_sq hs]
  have e5 : (1:ℝ) - Real.sin (Real.pi / 360) ^ 2 = Real.cos (Real.pi / 360) ^ 2 := by
    have := Real.sin_sq_add_cos_sq (Real.pi / 360)
    linarith
  rw [e5, Real.sqrt_sq hc, atan2_sin_cos (Real.pi / 360) ht1 ht2]
  ring

/-- Claim C3: `haversine` computes exactly the spec formula
(`R * c` with `R = 6371.0`, `a = sin^2(dlat/2) + cos lat1 cos lat2
sin^2(dlon/2)`, `c = 2 atan2 (sqrt a) (sqrt (1-a))`, angles in radians), and
the distance between (0,0) and (0,1) degrees is within 0.5 km of 111.19 km. -/
theorem haversine_matches_spec :
    (∀ lat1 lon1 lat2 lon2 : ℝ,
      haversine lat1 lon1 lat2 lon2 = haversine_spec lat1 lon1 lat2 lon2) ∧
    |haversine 0 0 0 1 - 111.19| ≤ 0.5 := by
  refine ⟨fun _ _ _ _ => rfl, ?_⟩
  rw [haversine_origin_east, abs_le]
  constructor <;> linarith [Real.pi_gt_d2, Real.pi_lt_d2]

/-- Claim C4, counterexample: with bbox `[0, 162, -90, 90]` and target height
1 the aspect-corrected product is 0.9; the code truncates it with `int()` and
returns width 0, while the claimed `round` gives 1. -/
theorem autoscale_truncates_not_rounds :
    autoscale_resolution_from_bbox (some [0, 162, -90, 90]) 1 = Except.ok (0, 1) ∧
      round ((1:ℝ) * ((162 - 0) * Real.cos (radians ((-90 + 90) / 2)) / (90 - (-90)))) = 1 ∧
      (0:ℤ) ≠ 1 := by
  have hcos : Real.cos (radians (((-90:ℝ) + 90) / 2)) = 1 := by
    norm_num [radians]
  refine ⟨?_, ?_, by decide⟩
  · simp only [autoscale_resolution_from_bbox]
    rw [if_neg (by simp),
      if_neg (show ¬([(0:ℝ), 162, -90, 90].getD 3 0 - [(0:ℝ), 162, -90, 90].getD 2 0 = 0)
        by norm_num [List.getD])]
    have harg : ((1:ℤ) : ℝ) *
        (([(0:ℝ), 162, -90, 90].getD 1 0 - [(0:ℝ), 162, -90, 90].getD 0 0) *
          Real.cos (radians (([(0:ℝ), 162, -90, 90].getD 2 0 +
            [(0:ℝ), 162, -90, 90].getD 3 0) / 2)) /
          ([(0:ℝ), 162, -90, 90].getD 3 0 - [(0:ℝ), 162, -90, 90].getD 2 0)) = 9 / 10 := by
      simp only [List.getD_cons_zero, List.getD_cons_succ]
      rw [hcos]
      norm_num
    rw [harg]
    have : pyInt (9 / 10 : ℝ) = 0 := by
      rw [pyInt, if_pos (by norm_num : (0:ℝ) ≤ 9 / 10)]
      norm_num
    rw [this]
  · rw [hcos]
    norm_num [round_eq]

/-- Claim C4 (amended): for every four-value bbox with nonzero latitude span,
`autoscale_resolution_from_bbox` returns height = target_height and width =
`int()` truncation toward zero of `target_height * aspect_ratio`, with
`aspect_ratio = lon_range * cos(radians((min_lat + max_lat)/2)) / lat_range`. -/
theorem autoscale_resolution_formula (b : List ℝ) (target_height : ℤ)
    (hlen : b.length = 4) (hlat : b.getD 3 0 - b.getD 2 0 ≠ 0) :
    autoscale_resolution_from_bbox (some b) target_height =
      Except.ok
        (pyInt ((target_height : ℝ) *
          ((b.getD 1 0 - b.getD 0 0) *
            Real.cos (radians ((b.getD 2 0 + b.getD 3 0) / 2)) /
            (b.getD 3 0 - b.getD 2 0))),
         target_height) := by
  simp only [autoscale_resolution_from_bbox]
  rw [if_neg (not_not_intro hlen), if_neg hlat]

/-- Claim C4 witness: the amended formula at bbox `[0, 90, 0, 90]`, target
height 3. -/
theorem autoscale_resolution_formula_witness :
    autoscale_resolution_from_bbox (some [0, 90, 0, 90]) 3 =
      Except.ok
        (pyInt ((3:ℝ) *
          (([(0:ℝ), 90, 0, 90].getD 1 0 - [(0:ℝ), 90, 0, 90].getD 0 0) *
            Real.cos (radians (([(0:ℝ), 90, 0, 90].getD 2 0 +
              [(0:ℝ), 90, 0, 90].getD 3 0) / 2)) /
            ([(0:ℝ), 90, 0, 90].getD 3 0 - [(0:ℝ), 90, 0, 90].getD 2 0))),
         3) := by
  have h := autoscale_resolution_formula [0, 90, 0, 90] 3 (by simp)
    (by norm_num [List.getD_cons_zero, List.getD_cons_succ])
  simpa using h

/-- Claim C5, counterexample: with three `.gpx` entries of which the middle
one fails to parse, the run aborts with that parse error; the third file is
never staged, contradicting the claimed per-file recovery. -/
theorem create_map_parse_failure_aborts_run :
    create_map_tracks
      [("a.gpx", Except.ok [⟨some 0, some 0, some 0⟩]),
       ("b.gpx", Except.error "ParseError: not well-formed (invalid token)"),
       ("c.gpx", Except.ok [⟨some 0, some 0, some 0⟩])] none =
      Except.error "ParseError: not well-formed (invalid token)" ∧
    create_map_tracks
      [("a.gpx", Except.ok [⟨some 0, some 0, some 0⟩]),
       ("b.gpx", Except.error "ParseError: not well-formed (invalid token)"),
       ("c.gpx", Except.ok [⟨some 0, some 0, some 0⟩])] none ≠
      Except.ok [[((0:ℝ), (0:ℝ), (0:ℝ))], [((0:ℝ), (0:ℝ), (0:ℝ))]] := by
  refine ⟨rfl, ?_⟩
  rw [show create_map_tracks
      [("a.gpx", Except.ok [⟨some 0, some 0, some 0⟩]),
       ("b.gpx", Except.error "ParseError: not well-formed (invalid token)"),
       ("c.gpx", Except.ok [⟨some 0, some 0, some 0⟩])] none =
      Except.error "ParseError: not well-formed (invalid token)" from rfl]
  simp

/-- Claim C5 (amended): a parse failure on a matching track file is NOT
recovered: the exception propagates out of the directory loop, aborting the
run regardless of what the remaining entries are. -/
theorem create_map_parse_failure_propagates (name e : String)
    (rest : List (String × Except String (List TrkPt))) (max_speed : Option ℝ)
    (h : endswith name ".gpx" = true) :
    create_map_tracks ((name, Except.error e) :: rest) max_speed = Except.error e := by
  simp only [create_map_tracks]
  rw [if_pos h]

/-- Claim C5 witness: the amended theorem at a concrete failing file. -/
theorem create_map_parse_failure_propagates_witness :
    create_map_tracks [("t.gpx", Except.error "boom")] none = Except.error "boom" :=
  create_map_parse_failure_propagates "t.gpx" "boom" [] none (by decide)

/-- Claim C6: requesting autoscale (a truthy target height) with `bbox` equal
to `None`, or with a bbox that does not have exactly four values, makes the
run fail with the `ValueError` naming the four-value requirement — whatever
the source directory contains, since the check precedes all file handling. -/
theorem autoscale_without_bbox_fatal (files : List (String × Except String (List TrkPt)))
    (resolutionArg : ℤ × ℤ) (bbox : Option (List ℝ)) (a : ℤ) (maxspeed : Option ℝ)
    (ha : a ≠ 0)
    (hb : bbox = none ∨ ∃ l, bbox = some l ∧ l.length ≠ 4) :
    main_run files resolutionArg bbox (some a) maxspeed = Except.error bboxErrMsg := by
  have hres : autoscale_resolution_from_bbox bbox a = Except.error bboxErrMsg := by
    rcases hb with rfl | ⟨l, rfl, hl⟩
    · rfl
    · simp only [autoscale_resolution_from_bbox]
      rw [if_pos hl]
  simp only [main_run]
  rw [if_pos ha, hres]

/-- Claim C6 witness: autoscale 100 with no bbox on an empty directory. -/
theorem autoscale_without_bbox_fatal_witness :
    main_run [] (512, 512) none (some 100) none = Except.error bboxErrMsg :=
  autoscale_without_bbox_fatal [] (512, 512) none 100 none (by decide) (Or.inl rfl)

/-- Claim C7: under autoscale, a four-value bbox whose latitude span is zero
takes the `ZeroDivisionError` branch — `autoscale_resolution_from_bbox` never
returns a resolution for such input. -/
theorem autoscale_zero_lat_range (a b c d : ℝ) (target_height : ℤ) (h : d - c = 0) :
    autoscale_resolution_from_bbox (some [a, b, c, d]) target_height =
      Except.error "ZeroDivisionError: float division by zero" := by
  simp only [autoscale_resolution_from_bbox]
  rw [if_neg (by simp : ¬([a, b, c, d].length ≠ 4))]
  rw [if_pos (show [a, b, c, d].getD 3 0 - [a, b, c, d].getD 2 0 = 0 from h)]

/-- Claim C7 witness: the degenerate bbox `[0, 1, 5, 5]` at target height 9. -/
theorem autoscale_zero_lat_range_witness :
    autoscale_resolution_from_bbox (some [0, 1, 5, 5]) 9 =
      Except.error "ZeroDivisionError: float division by zero" :=
  autoscale_zero_lat_range 0 1 5 5 9 (by norm_num)

/-- Claim C8: a feature whose geometry type is none of LineString, Polygon,
MultiPolygon is silently skipped by `draw_geojson` — it stages nothing and
raises nothing, and the drawing program for the rest of the file is exactly
what it would be without that feature. -/
theorem draw_geojson_skips_unrecognized (fs1 fs2 : List Feature) (f : Feature)
    (h : ∀ s, f.typ = some s → s ≠ "LineString" ∧ s ≠ "Polygon" ∧ s ≠ "MultiPolygon") :
    drawFeature f = Except.ok [] ∧
      draw_geojson (fs1 ++ f :: fs2) = draw_geojson (fs1 ++ fs2) := by
  have hf : drawFeature f = Except.ok [] := by
    cases htyp : f.typ with
    | none => simp [drawFeature, htyp]
    | some s =>
      obtain ⟨h1, h2, h3⟩ := h s htyp
      simp [drawFeature, htyp, h1, h2, h3]
  refine ⟨hf, ?_⟩
  induction fs1 with
  | nil =>
    simp only [List.nil_append, draw_geojson, hf]
    cases draw_geojson fs2 <;> simp
  | cons g gs ih =>
    simp only [List.cons_append, draw_geojson, List.append_eq, ih]

/-- Claim C8 witness: a `Point` feature among a recognized LineString. -/
theorem draw_geojson_skips_unrecognized_witness :
    drawFeature ⟨some "Point", [JVal.arr [JVal.num 7, JVal.num 8]]⟩ = Except.ok [] ∧
      draw_geojson [⟨some "Point", [JVal.arr [JVal.num 7, JVal.num 8]]⟩,
          ⟨some "LineString", [JVal.arr [JVal.num 1, JVal.num 2], JVal.arr [JVal.num 3, JVal.num 4]]⟩] =
        draw_geojson [⟨some "LineString", [JVal.arr [JVal.num 1, JVal.num 2], JVal.arr [JVal.num 3, JVal.num 4]]⟩] :=
  draw_geojson_skips_unrecognized []
    [⟨some "LineString", [JVal.arr [JVal.num 1, JVal.num 2], JVal.arr [JVal.num 3, JVal.num 4]]⟩]
    ⟨some "Point", [JVal.arr [JVal.num 7, JVal.num 8]]⟩
    (by intro s hs; injection hs with hs'; subst hs'; exact ⟨by decide, by decide, by decide⟩)

/-- Claim C9: the comparison against the threshold is strict — whenever every
usable segment's speed is at most `max_kph` (in particular when the maximum
segment speed equals `max_kph` exactly), the track is not excluded. -/
theorem exceeds_speed_threshold_strict (points : List Point) (max_kph : ℝ)
    (h : ∀ pr ∈ points.zip points.tail, pr.2.2.2 - pr.1.2.2 ≠ 0 →
      compute_speed_kph pr.1.1 pr.1.2.1 pr.2.1 pr.2.2.1 (pr.2.2.2 - pr.1.2.2) ≤ max_kph) :
    exceeds_speed_threshold points max_kph = false := by
  cases hb : exceeds_speed_threshold points max_kph
  · rfl
  · obtain ⟨pr, hmem, hdt, hsp⟩ := (exceeds_iff points max_kph).mp hb
    exact absurd hsp (not_lt.mpr (h pr hmem hdt))

/-- Claim C9 witness: a stationary two-point track whose single segment has
speed exactly equal to the threshold 0 is not excluded. -/
theorem exceeds_speed_threshold_strict_witness :
    exceeds_speed_threshold [((0:ℝ), (0:ℝ), (0:ℝ)), ((0:ℝ), (0:ℝ), (1:ℝ))] 0 = false := by
  apply exceeds_speed_threshold_strict
  intro pr hmem hdt
  simp only [List.tail_cons, List.zip_cons_cons, List.zip_nil_right,
    List.mem_singleton] at hmem
  subst hmem
  have h0 : haversine 0 0 0 0 = 0 := haversine_self 0 0
  simp [compute_speed_kph, h0]

/-- Claim C10: the bbox `[0, 0, 0, 1]` satisfies min <= max on both axes and
has positive latitude span, yet autoscale at target height 100 returns
width 0, which is not a positive pixel width. -/
theorem autoscale_can_return_zero_width :
    autoscale_resolution_from_bbox (some [0, 0, 0, 1]) 100 = Except.ok (0, 100) ∧
      ((0:ℝ) ≤ 0 ∧ (0:ℝ) ≤ 1) ∧ (1:ℝ) - 0 > 0 ∧ ¬(0 < (0:ℤ)) := by
  refine ⟨?_, ⟨by norm_num, by norm_num⟩, by norm_num, by norm_num⟩
  simp only [autoscale_resolution_from_bbox]
  rw [if_neg (by simp),
    if_neg (show ¬([(0:ℝ), 0, 0, 1].getD 3 0 - [(0:ℝ), 0, 0, 1].getD 2 0 = 0)
      by norm_num [List.getD])]
  norm_num [pyInt, List.getD]

end GpxDraw
